import Mathlib

/-!
# luna-service2 `src/error.h`: validity tag, construction macros and guards

A shallow embedding of the macros of `error.h`.  Every macro is embedded as the
statement it expands to: a function from the world before it to a control
outcome and the world after it.  Macro arguments that the preprocessor pastes as
text (`cond`, `__VA_ARGS__`) are side-effecting expressions, evaluated once per
textual occurrence in the expansion.
-/

namespace LunaError

/-! ## Validity tag (`LS_MAGIC`) -/

/-- The `char` array denoted by the C string literal `"s"`: the bytes of `s`
followed by the terminating NUL, so that `sizeof` is `s.length + 1`.
ASCII text only (one byte per character, values below 128). -/
def cstr (s : String) : List Nat := s.toList.map Char.toNat ++ [0]

/-- The index expression `sizeof(typestring)*k/8` of `LS_MAGIC` (C integer division). -/
def sampleIndex (n k : Nat) : Nat := n * k / 8

/-- Macro `LS_MAGIC(typestring)`, lines 57-65.  `typestring` is the whole array (NUL
included) and `sizeof(typestring)` is its length.  A read outside the array is
`none`.  For bytes below 128 no shift leaves the range of a 32-bit `int`. -/
def LS_MAGIC (typestring : List Nat) : Option Nat :=
  let n := typestring.length
  match typestring[sampleIndex n 7]?, typestring[sampleIndex n 6]?,
        typestring[sampleIndex n 5]?, typestring[sampleIndex n 4]?,
        typestring[sampleIndex n 3]?, typestring[sampleIndex n 2]?,
        typestring[sampleIndex n 1]?, typestring[sampleIndex n 0]? with
  | some c7, some c6, some c5, some c4, some c3, some c2, some c1, some c0 =>
    some (((c7 <<< 24) ||| (c6 <<< 16) ||| (c5 <<< 8) ||| c4) ^^^
          ((c3 <<< 24) ||| (c2 <<< 16) ||| (c1 <<< 8) ||| c0))
  | _, _, _, _, _, _, _, _ => none

/-- The tag as the specification words it (section 4.1): eight samples of `s` at
`⌊len·k/8⌋`, the four high ones packed into `A`, the four low ones into `B`,
most significant first, result `A XOR B`.  `len` is left as an argument. -/
def ComputeTag (s : List Nat) (len : Nat) : Nat :=
  let A := (s.getD (len * 7 / 8) 0 <<< 24) ||| (s.getD (len * 6 / 8) 0 <<< 16) |||
           (s.getD (len * 5 / 8) 0 <<< 8) ||| s.getD (len * 4 / 8) 0
  let B := (s.getD (len * 3 / 8) 0 <<< 24) ||| (s.getD (len * 2 / 8) 0 <<< 16) |||
           (s.getD (len * 1 / 8) 0 <<< 8) ||| s.getD (len * 0 / 8) 0
  A ^^^ B

/-! ## printf-style rendering -/

/-- A variadic argument handed to a printf-style function. -/
inductive Arg where
  | str (s : String)
  | int (n : Int)
deriving DecidableEq, Repr

/-- Modelled from the spec: the rendering of a printf-style format ("Renders the
formatted text", section 4.3, `SetFormatted`), which the absent body of
`_LSErrorSetFunc` performs.  `%%` yields one percent sign, `%s` and `%d` consume
the next argument; a conversion without a matching argument, or any other
conversion, has no defined behaviour in C and gives `none`. -/
def vprintf : List Char → List Arg → Option (List Char)
  | [], _ => some []
  | c :: rest, as =>
    if c = '%' then
      match rest with
      | [] => none
      | d :: rest' =>
        if d = '%' then (vprintf rest' as).map (fun r => '%' :: r)
        else if d = 's' then
          match as with
          | Arg.str s :: as' => (vprintf rest' as').map (fun r => s.toList ++ r)
          | _ => none
        else if d = 'd' then
          match as with
          | Arg.int n :: as' => (vprintf rest' as').map (fun r => (toString n).toList ++ r)
          | _ => none
        else none
    else (vprintf rest as).map (fun r => c :: r)

/-- Modelled from the spec: the formatted text as a fresh string
(`g_strdup_vprintf` in the absent body of `_LSErrorSetFunc`). -/
def g_strdup_vprintf (format : String) (args : List Arg) : Option String :=
  (vprintf format.toList args).map String.mk

/-! ## Data model -/

/-- The error value.  `LSError` is declared in `lunaservice.h`; the header reads
its `magic` field, and code and message are the fields of section 3. -/
structure LSError where
  error_code : Int
  message : Option String
  magic : Nat
deriving DecidableEq, Repr

/-- A glib `GError`: the foreign error object with its own code and message. -/
structure GError where
  code : Int
  message : String
deriving DecidableEq, Repr

/-- The call site of a macro: `__FILE__`, `__LINE__` and `__FUNCTION__`. -/
structure Site where
  file : String
  line : Int
  function : String
deriving DecidableEq, Repr

/-- What a statement does that is visible from outside, in order. -/
inductive Event where
  /-- Call of `g_critical(format, args...)` -/
  | critical (format : String) (args : List Arg)
  /-- A failed `assert`: the process is terminated -/
  | abort
  /-- Entry into `_LSErrorSetFunc(lserror, file, line, function, code, format, args...)` -/
  | setFunc (site : Site) (error_code : Int) (format : String) (args : List Arg)
  /-- Entry into `_LSErrorSetFromErrnoFunc(lserror, file, line, function, code)` -/
  | setFromErrnoFunc (site : Site) (error_code : Int)
  /-- A dynamic allocation (the message buffer) -/
  | alloc
  /-- The error value is written -/
  | store (error_code : Int) (message : String)
  /-- Call of `g_error_free(gerror)` -/
  | g_error_free (g : GError)
deriving DecidableEq, Repr

/-- The state a statement runs in: the caller's own variables, the object the
`lserror` pointer refers to (`none` for a NULL pointer) and the events so far. -/
structure World (σ : Type) where
  user : σ
  lserror : Option LSError
  trace : List Event

/-- How a statement ends. -/
inductive Ctl where
  /-- Control reaches the next statement -/
  | next
  /-- Statement `return v;` from the enclosing function -/
  | ret (v : Bool)
  /-- Statement `goto label;` -/
  | goto (label : String)
  /-- The process was terminated -/
  | abort
  /-- A read outside an array: no defined behaviour -/
  | undefined
deriving DecidableEq, Repr

/-- A C statement. -/
abbrev Stmt (σ : Type) := World σ → Ctl × World σ

/-- A C expression with side effects on the caller's variables. -/
abbrev Expr (σ : Type) (α : Type) := σ → α × σ

/-- Sequence `s; t`: the second statement runs only when the first falls through. -/
def seq {σ : Type} (s t : Stmt σ) : Stmt σ := fun w =>
  match s w with
  | (Ctl.next, w') => t w'
  | r => r

/-- The empty statement. -/
def skip {σ : Type} : Stmt σ := fun w => (Ctl.next, w)

/-- Evaluate an expression once, then run the statement that uses its value. -/
def evalThen {σ α : Type} (e : Expr σ α) (k : α → Stmt σ) : Stmt σ := fun w =>
  k (e w.user).1 { w with user := (e w.user).2 }

/-- Record one event. -/
def emit {σ : Type} (ev : Event) : Stmt σ := fun w =>
  (Ctl.next, { w with trace := w.trace ++ [ev] })

/-- Call `g_critical(format, args...)`: one line to the diagnostic sink. -/
def g_critical {σ : Type} (format : String) (args : List Arg) : Stmt σ :=
  emit (Event.critical format args)

/-- Macro `assert(e)` of `<assert.h>`, which the header includes without defining
`NDEBUG`: a false `e` terminates the process. -/
def c_assert {σ : Type} (e : Bool) : Stmt σ := fun w =>
  if e then (Ctl.next, w) else (Ctl.abort, { w with trace := w.trace ++ [Event.abort] })

/-- Statement `return v;` -/
def c_return {σ : Type} (v : Bool) : Stmt σ := fun w => (Ctl.ret v, w)

/-- Statement `goto label;` -/
def c_goto {σ : Type} (label : String) : Stmt σ := fun w => (Ctl.goto label, w)

/-- Call `g_error_free(gerror)` -/
def g_error_free {σ : Type} (g : GError) : Stmt σ := emit (Event.g_error_free g)

/-! ## Validation (`LS_ASSERT`, `LS_MAGIC_ASSERT`, `LSERROR_CHECK_MAGIC`) -/

/-- Macro `LS_ASSERT(cond)`, lines 48-54.  `condText` is `#cond`.  The argument
of `assert` is `!#cond`, the negation of a string literal, which is false. -/
def LS_ASSERT {σ : Type} (site : Site) (condText : String) (cond : Expr σ Bool) : Stmt σ :=
  evalThen cond fun c =>
    if !c then
      seq (g_critical (condText ++ ": failed in %s, %s, %d")
            [Arg.str site.function, Arg.str site.file, Arg.int site.line])
          (c_assert false)
    else skip

/-- The test `(object) && ((object)->magic != m)`; `object` is `none` for a NULL
pointer and otherwise the `magic` field of the object pointed to. -/
def magicDiffers (object : Option Nat) (m : Nat) : Bool :=
  match object with
  | none => false
  | some magic => magic != m

/-- The test `(object) && ((object)->magic == m)`. -/
def magicMatches (object : Option Nat) (m : Nat) : Bool :=
  match object with
  | none => false
  | some magic => magic == m

/-- The text `#cond` that `LS_MAGIC_ASSERT` hands to `LS_ASSERT`. -/
def magicCondText (objText type : String) : String :=
  "(" ++ objText ++ ") && ((" ++ objText ++ ")->magic == LS_MAGIC(\"" ++ type ++ "\"))"

/-- Macro `LS_MAGIC_ASSERT(object, type, ...)`, lines 72-80.  `objText` is the
spelling of `object`, `format` and `args` are `__VA_ARGS__`. -/
def LS_MAGIC_ASSERT {σ : Type} (site : Site) (objText : String) (object : Option Nat)
    (type : String) (format : String) (args : List Arg) : Stmt σ := fun w =>
  match LS_MAGIC (cstr type) with
  | none => (Ctl.undefined, w)
  | some m =>
    if magicDiffers object m then
      seq (g_critical format args)
          (LS_ASSERT site (magicCondText objText type)
            (fun u => (magicMatches object m, u))) w
    else (Ctl.next, w)

/-- Macro `LSERROR_CHECK_MAGIC(lserror)`, lines 83-88. -/
def LSERROR_CHECK_MAGIC {σ : Type} (site : Site) : Stmt σ := fun w =>
  LS_MAGIC_ASSERT site "lserror" (w.lserror.map LSError.magic) "LSError"
    "LSError magic value incorrect.  Did you initialize it with LSErrorInit?" [] w

/-! ## The setters behind the macros -/

/-- Where the validation inside the setters sits; their file is not part of the
header, so the line is left at 0. -/
def setterSite (function : String) : Site := ⟨"base.c", 0, function⟩

/-- Modelled from the spec: the body of `_LSErrorSetFunc`, of which `error.h`
has only the declaration (lines 93-95).  Section 4.3: a null value is a
success with no effect; a non-null value is validated first (section 4.1, with
`LSERROR_CHECK_MAGIC`); then the format is rendered into a freshly allocated
buffer that replaces the message, and the code is stored.  A format with a
conversion that has no matching argument has no defined behaviour in C and ends
in `Ctl.undefined`; a null value returns before any rendering.  The log line of
section 4.3 (b) is the one the macros of the header emit before the call; the
body is modelled with no log line of its own besides those of the validation.
The boolean result is dropped by every macro of the header and is not modelled. -/
def _LSErrorSetFunc {σ : Type} (site : Site) (error_code : Int) (error_message : String)
    (args : List Arg) : Stmt σ :=
  seq (emit (Event.setFunc site error_code error_message args)) fun w =>
    match w.lserror with
    | none => (Ctl.next, w)
    | some e =>
      seq (LSERROR_CHECK_MAGIC (setterSite "_LSErrorSetFunc")) (fun w1 =>
        match g_strdup_vprintf error_message args with
        | some m =>
          (Ctl.next, { w1 with
            lserror := some { e with error_code := error_code, message := some m }
            trace := w1.trace ++ [Event.alloc, Event.store error_code m] })
        | none => (Ctl.undefined, w1)) w

/-- Modelled from the spec: the body of `_LSErrorSetFromErrnoFunc` (declared at
lines 97-99).  Section 4.3, `SetFromErrno`: the textual description of the code,
given by the collaborator `describe`, is stored as a literal message with the code. -/
def _LSErrorSetFromErrnoFunc {σ : Type} (describe : Int → String) (site : Site)
    (error_code : Int) : Stmt σ :=
  seq (emit (Event.setFromErrnoFunc site error_code)) fun w =>
    match w.lserror with
    | none => (Ctl.next, w)
    | some e =>
      seq (LSERROR_CHECK_MAGIC (setterSite "_LSErrorSetFromErrnoFunc")) (fun w1 =>
        (Ctl.next, { w1 with
          lserror := some { e with error_code := error_code, message := some (describe error_code) }
          trace := w1.trace ++ [Event.alloc, Event.store error_code (describe error_code)] })) w

/-! ## Guards -/

/-- Macro `_LSErrorIfFail(cond, lserror)`, lines 101-112. -/
def _LSErrorIfFail {σ : Type} (site : Site) (condText : String) (cond : Expr σ Bool) : Stmt σ :=
  evalThen cond fun c =>
    if !c then
      seq (g_critical (condText ++ " from " ++ site.file ++ ":%d @ %s")
            [Arg.int site.line, Arg.str site.function])
      (seq (_LSErrorSetFunc site (-1) condText [])
           (c_return false))
    else skip

/-- Macro `_LSErrorIfFailMsg(cond, lserror, error_code, ...)`, lines 114-127.
`__VA_ARGS__` is the literal `format` (it is pasted onto another literal) and the
argument expressions `args`, written out twice by the expansion. -/
def _LSErrorIfFailMsg {σ : Type} (site : Site) (condText : String) (cond : Expr σ Bool)
    (error_code : Int) (format : String) (args : Expr σ (List Arg)) : Stmt σ :=
  evalThen cond fun c =>
    if !c then
      seq (evalThen args fun a =>
            g_critical (condText ++ " from " ++ site.file ++ ":" ++ format) a)
      (seq (evalThen args fun a =>
            _LSErrorSetFunc site error_code (condText ++ ": " ++ format) a)
           (c_return false))
    else skip

/-- Macro `_LSErrorGotoIfFail(label, cond, lserror, error_code, ...)`, lines 129-142. -/
def _LSErrorGotoIfFail {σ : Type} (site : Site) (label : String) (condText : String)
    (cond : Expr σ Bool) (error_code : Int) (format : String)
    (args : Expr σ (List Arg)) : Stmt σ :=
  evalThen cond fun c =>
    if !c then
      seq (evalThen args fun a =>
            g_critical (condText ++ " from " ++ site.file ++ ":" ++ format) a)
      (seq (evalThen args fun a =>
            _LSErrorSetFunc site error_code (condText ++ ": " ++ format) a)
           (c_goto label))
    else skip

/-! ## Construction macros -/

/-- Macro `_LSErrorSetNoPrint(lserror, error_code, ...)`, lines 144-149;
`va` is the value of `__VA_ARGS__`: the format and its arguments. -/
def _LSErrorSetNoPrint {σ : Type} (site : Site) (error_code : Int)
    (va : String × List Arg) : Stmt σ :=
  _LSErrorSetFunc site error_code va.1 va.2

/-- Macro `_LSErrorSetNoPrintLiteral(lserror, error_code, error_message)`,
lines 151-155: the message goes into the format position, with no arguments. -/
def _LSErrorSetNoPrintLiteral {σ : Type} (site : Site) (error_code : Int)
    (error_message : String) : Stmt σ :=
  _LSErrorSetFunc site error_code error_message []

/-- Macro `_LSErrorSet(lserror, error_code, ...)`, lines 166-171.  The expansion
writes `__VA_ARGS__` out twice, so the expression `va` is evaluated twice. -/
def _LSErrorSet {σ : Type} (site : Site) (error_code : Int)
    (va : Expr σ (String × List Arg)) : Stmt σ :=
  seq (g_critical "Error in %s:%d" [Arg.str site.file, Arg.int site.line])
  (seq (evalThen va fun v => g_critical v.1 v.2)
       (evalThen va fun v => _LSErrorSetNoPrint site error_code v))

/-- Macro `_LSErrorSetLiteral(lserror, error_code, error_message)`, lines 184-188. -/
def _LSErrorSetLiteral {σ : Type} (site : Site) (error_code : Int)
    (error_message : String) : Stmt σ :=
  seq (g_critical "Error in %s:%d, %s"
        [Arg.str site.file, Arg.int site.line, Arg.str error_message])
      (_LSErrorSetNoPrintLiteral site error_code error_message)

/-- The text `LS_ERROR_TEXT_OOM`, line 35. -/
def LS_ERROR_TEXT_OOM : String := "Out of memory"

/-- Macro `_LSErrorSetOOM(lserror)`, lines 201-204.  The constant
`LS_ERROR_CODE_OOM` is defined outside the header and is an argument here. -/
def _LSErrorSetOOM {σ : Type} (LS_ERROR_CODE_OOM : Int) (site : Site) : Stmt σ :=
  _LSErrorSet site LS_ERROR_CODE_OOM (fun u => ((LS_ERROR_TEXT_OOM, []), u))

/-- Macro `_LSErrorSetFromGError(lserror, gerror)`, lines 215-220. -/
def _LSErrorSetFromGError {σ : Type} (site : Site) (gerror : GError) : Stmt σ :=
  seq (g_critical "Error in %s:%d, %s"
        [Arg.str site.file, Arg.int site.line, Arg.str gerror.message])
  (seq (_LSErrorSetNoPrintLiteral site gerror.code gerror.message)
       (g_error_free gerror))

/-- Macro `_LSErrorSetFromErrno(lserror, error_code)`, lines 231-237;
`describe` is `g_strerror`. -/
def _LSErrorSetFromErrno {σ : Type} (describe : Int → String) (site : Site)
    (error_code : Int) : Stmt σ :=
  seq (g_critical "Error in %s:%d" [Arg.str site.file, Arg.int site.line])
  (seq (g_critical "%s" [Arg.str (describe error_code)])
       (_LSErrorSetFromErrnoFunc describe site error_code))

/-! ## Observations used in the statements -/

/-- An expression run on a state paired with a counter of its evaluations. -/
def counted {σ α : Type} (e : Expr σ α) : Expr (σ × Nat) α := fun s =>
  ((e s.1).1, ((e s.1).2, s.2 + 1))

/-- An expression run beside the counter without touching it. -/
def uncounted {σ α : Type} (e : Expr σ α) : Expr (σ × Nat) α := fun s =>
  ((e s.1).1, ((e s.1).2, s.2))

/-- The line a log event sends to the diagnostic sink, when it has one. -/
def Event.logLine : Event → Option String
  | Event.critical format args => g_strdup_vprintf format args
  | _ => none

/-- The log line of the event contains `text`. -/
def Event.carries (ev : Event) (text : String) : Prop :=
  match ev.logLine with
  | some l => text.toList <:+: l.toList
  | none => False

instance (ev : Event) (text : String) : Decidable (ev.carries text) := by
  unfold Event.carries
  cases ev.logLine <;> infer_instance

/-- The events of an `LS_MAGIC_ASSERT` that finds a wrong tag: the caller's
message, the line of `LS_ASSERT`, the termination. -/
def magicAssertEvents (site : Site) (objText type format : String) (args : List Arg) :
    List Event :=
  [Event.critical format args,
   Event.critical (magicCondText objText type ++ ": failed in %s, %s, %d")
     [Arg.str site.function, Arg.str site.file, Arg.int site.line],
   Event.abort]

/-- The events of `LSERROR_CHECK_MAGIC` on a wrong tag. -/
def checkMagicEvents (site : Site) : List Event :=
  magicAssertEvents site "lserror" "LSError"
    "LSError magic value incorrect.  Did you initialize it with LSErrorInit?" []

/-- The event is the entry into one of the two setters. -/
def Event.isSetterCall : Event → Bool
  | Event.setFunc _ _ _ _ => true
  | Event.setFromErrnoFunc _ _ => true
  | _ => false

/-- The event is a line sent to the diagnostic sink. -/
def Event.isLog : Event → Bool
  | Event.critical _ _ => true
  | _ => false

/-- The events up to and including the first entry into a setter: what the
expansion of a construction macro does itself, before the body of the setter runs. -/
def uptoSetterCall : List Event → List Event
  | [] => []
  | ev :: rest => if ev.isSetterCall then [ev] else ev :: uptoSetterCall rest

/-- The property of section 4.3 (b) as the claim words it, of the events one
operation produces at a call site: some log line carries the file, the line and
the name of the calling function, and no log event comes after the call of a setter. -/
def logsSiteBeforeSetter (site : Site) (events : List Event) : Prop :=
  (∃ ev ∈ events, ev.carries site.file ∧ ev.carries (toString site.line) ∧
    ev.carries site.function) ∧
  (∀ pre call post, events = pre ++ call :: post → call.isSetterCall = true →
    ∀ ev ∈ post, ev.isLog = false)

/-! ## Lemmas on the tag -/

variable {σ : Type}

theorem sampleIndex_lt (n k : Nat) (hn : 1 ≤ n) (hk : k < 8) : sampleIndex n k < n := by
  unfold sampleIndex
  interval_cases k <;> omega

theorem getElem?_sampleIndex (a : List Nat) (k : Nat) (ha : 1 ≤ a.length) (hk : k < 8) :
    a[sampleIndex a.length k]? = some (a.getD (sampleIndex a.length k) 0) := by
  have h := sampleIndex_lt a.length k ha hk
  rw [List.getD_eq_getElem?_getD, List.getElem?_eq_getElem h]
  rfl

theorem LS_MAGIC_eq_ComputeTag (a : List Nat) (ha : 1 ≤ a.length) :
    LS_MAGIC a = some (ComputeTag a a.length) := by
  unfold LS_MAGIC
  dsimp only
  rw [getElem?_sampleIndex a 7 ha (by decide), getElem?_sampleIndex a 6 ha (by decide),
    getElem?_sampleIndex a 5 ha (by decide), getElem?_sampleIndex a 4 ha (by decide),
    getElem?_sampleIndex a 3 ha (by decide), getElem?_sampleIndex a 2 ha (by decide),
    getElem?_sampleIndex a 1 ha (by decide), getElem?_sampleIndex a 0 ha (by decide)]
  rfl

theorem cstr_length (s : String) : (cstr s).length = s.length + 1 := by
  unfold cstr
  rw [List.length_append, List.length_map]
  rfl

theorem LS_MAGIC_cstr (s : String) :
    LS_MAGIC (cstr s) = some (ComputeTag (cstr s) (s.length + 1)) := by
  have h := LS_MAGIC_eq_ComputeTag (cstr s) (by rw [cstr_length]; omega)
  rwa [cstr_length] at h

/-! ## Lemmas on rendering -/

theorem vprintf_percent_free (l : List Char) (args : List Arg) (h : '%' ∉ l) :
    vprintf l args = some l := by
  induction l with
  | nil => simp [vprintf]
  | cons c rest ih =>
    have hc : c ≠ '%' := fun e => h (by simp [e])
    have hr : '%' ∉ rest := fun e => h (by simp [e])
    rw [vprintf.eq_def]
    simp [hc, ih hr]

theorem g_strdup_vprintf_percent_free (s : String) (args : List Arg) (h : '%' ∉ s.toList) :
    g_strdup_vprintf s args = some s := by
  unfold g_strdup_vprintf
  rw [vprintf_percent_free _ _ h]
  rfl

theorem logLine_error_in (file : String) (line : Int) :
    g_strdup_vprintf "Error in %s:%d" [Arg.str file, Arg.int line] =
      some ("Error in " ++ file ++ ":" ++ toString line) := by
  unfold g_strdup_vprintf
  have : ("Error in %s:%d" : String).toList = ['E','r','r','o','r',' ','i','n',' ','%','s',':','%','d'] := by decide
  rw [this]
  simp [vprintf]
  apply String.ext
  simp

theorem logLine_error_in_msg (file : String) (line : Int) (msg : String) :
    g_strdup_vprintf "Error in %s:%d, %s" [Arg.str file, Arg.int line, Arg.str msg] =
      some ("Error in " ++ file ++ ":" ++ toString line ++ ", " ++ msg) := by
  unfold g_strdup_vprintf
  have : ("Error in %s:%d, %s" : String).toList = ['E','r','r','o','r',' ','i','n',' ','%','s',':','%','d',',',' ','%','s'] := by decide
  rw [this]
  simp [vprintf]
  apply String.ext
  simp

/-! ## Lemmas on validation and the setters -/

theorem LS_MAGIC_LSError : LS_MAGIC (cstr "LSError") = some 1916222526 := by decide

theorem LS_MAGIC_ASSERT_eq (site : Site) (objText : String) (object : Option Nat)
    (type format : String) (args : List Arg) (w : World σ) :
    LS_MAGIC_ASSERT site objText object type format args w =
      match object with
      | none => (Ctl.next, w)
      | some magic =>
        if LS_MAGIC (cstr type) = some magic then (Ctl.next, w)
        else (Ctl.abort,
          { w with trace := w.trace ++ magicAssertEvents site objText type format args }) := by
  unfold LS_MAGIC_ASSERT
  rw [LS_MAGIC_cstr]
  cases object with
  | none => simp [magicDiffers]
  | some magic =>
    by_cases h : magic = ComputeTag (cstr type) (type.length + 1)
    · simp [magicDiffers, h]
    · have h2 : ¬ ComputeTag (cstr type) (type.length + 1) = magic := fun e => h e.symm
      simp [magicDiffers, magicMatches, h, h2, seq, g_critical, emit, LS_ASSERT, evalThen, c_assert,
        magicAssertEvents]

theorem LSERROR_CHECK_MAGIC_eq (site : Site) (w : World σ) :
    LSERROR_CHECK_MAGIC site w =
      match w.lserror with
      | none => (Ctl.next, w)
      | some e =>
        if e.magic = 1916222526 then (Ctl.next, w)
        else (Ctl.abort, { w with trace := w.trace ++ checkMagicEvents site }) := by
  unfold LSERROR_CHECK_MAGIC
  rw [LS_MAGIC_ASSERT_eq, LS_MAGIC_LSError]
  cases h : w.lserror with
  | none => rfl
  | some e =>
    by_cases hm : e.magic = 1916222526
    · simp [hm]
    · have h2 : ¬ (1916222526 : Nat) = e.magic := fun e => hm e.symm
      simp [hm, h2, checkMagicEvents]

theorem _LSErrorSetFunc_eq (site : Site) (c : Int) (f : String) (a : List Arg) (w : World σ) :
    _LSErrorSetFunc site c f a w =
      match w.lserror with
      | none => (Ctl.next, { w with trace := w.trace ++ [Event.setFunc site c f a] })
      | some e =>
        if e.magic = 1916222526 then
          match g_strdup_vprintf f a with
          | some m =>
            (Ctl.next, { w with
              lserror := some { e with error_code := c, message := some m },
              trace := w.trace ++ [Event.setFunc site c f a, Event.alloc, Event.store c m] })
          | none => (Ctl.undefined, { w with trace := w.trace ++ [Event.setFunc site c f a] })
        else
          (Ctl.abort, { w with trace :=
            w.trace ++ (Event.setFunc site c f a :: checkMagicEvents (setterSite "_LSErrorSetFunc")) }) := by
  unfold _LSErrorSetFunc
  cases h : w.lserror with
  | none => simp [seq, emit, h]
  | some e =>
    simp only [seq, emit, h]
    rw [LSERROR_CHECK_MAGIC_eq]
    simp only [h]
    by_cases hm : e.magic = 1916222526
    · simp only [hm, if_true]
      cases g_strdup_vprintf f a <;> simp
    · simp [hm]

theorem _LSErrorSetFromErrnoFunc_eq (describe : Int → String) (site : Site) (c : Int)
    (w : World σ) :
    _LSErrorSetFromErrnoFunc describe site c w =
      match w.lserror with
      | none => (Ctl.next, { w with trace := w.trace ++ [Event.setFromErrnoFunc site c] })
      | some e =>
        if e.magic = 1916222526 then
          (Ctl.next, { w with
            lserror := some { e with error_code := c, message := some (describe c) },
            trace := w.trace ++
              [Event.setFromErrnoFunc site c, Event.alloc, Event.store c (describe c)] })
        else
          (Ctl.abort, { w with trace :=
            w.trace ++ (Event.setFromErrnoFunc site c ::
              checkMagicEvents (setterSite "_LSErrorSetFromErrnoFunc")) }) := by
  unfold _LSErrorSetFromErrnoFunc
  cases h : w.lserror with
  | none => simp [seq, emit, h]
  | some e =>
    simp only [seq, emit, h]
    rw [LSERROR_CHECK_MAGIC_eq]
    simp only [h]
    by_cases hm : e.magic = 1916222526
    · simp [hm]
    · simp [hm]

/-! ## Lemmas on sequencing -/

theorem _LSErrorSetFunc_user (site : Site) (c : Int) (f : String) (a : List Arg) (w : World σ) :
    (_LSErrorSetFunc site c f a w).2.user = w.user := by
  rw [_LSErrorSetFunc_eq]
  cases w.lserror with
  | none => rfl
  | some e =>
    dsimp only
    split
    · split <;> rfl
    · rfl

theorem _LSErrorSetFunc_trace (site : Site) (c : Int) (f : String) (a : List Arg) (w : World σ) :
    ∃ rest, (_LSErrorSetFunc site c f a w).2.trace = w.trace ++ Event.setFunc site c f a :: rest := by
  rw [_LSErrorSetFunc_eq]
  cases w.lserror with
  | none => exact ⟨[], rfl⟩
  | some e =>
    dsimp only
    split
    · split
      · exact ⟨_, rfl⟩
      · exact ⟨[], rfl⟩
    · exact ⟨_, rfl⟩

theorem seq_c_return_snd (s : Stmt σ) (v : Bool) (w : World σ) :
    (seq s (c_return v) w).2 = (s w).2 := by
  unfold seq
  split
  · next w1 h => rw [h]; rfl
  · rfl

theorem seq_c_goto_snd (s : Stmt σ) (label : String) (w : World σ) :
    (seq s (c_goto label) w).2 = (s w).2 := by
  unfold seq
  split
  · next w1 h => rw [h]; rfl
  · rfl

theorem seq_g_critical (format : String) (args : List Arg) (t : Stmt σ) (w : World σ) :
    seq (g_critical format args) t w =
      t { w with trace := w.trace ++ [Event.critical format args] } := rfl

theorem seq_evalThen_g_critical {α : Type} (e : Expr σ α) (format : α → String)
    (args : α → List Arg) (t : Stmt σ) (w : World σ) :
    seq (evalThen e fun v => g_critical (format v) (args v)) t w =
      t { w with user := (e w.user).2,
                 trace := w.trace ++ [Event.critical (format (e w.user).1) (args (e w.user).1)] } :=
  rfl

/-! ## Lemmas on the events of the setters -/

theorem valid_magic (e : LSError) (h : LS_MAGIC (cstr "LSError") = some e.magic) :
    e.magic = 1916222526 := by
  rw [LS_MAGIC_LSError] at h
  exact (Option.some.inj h).symm

theorem _LSErrorSetFromErrnoFunc_trace (describe : Int → String) (site : Site) (c : Int)
    (w : World σ) :
    ∃ rest, (_LSErrorSetFromErrnoFunc describe site c w).2.trace =
        w.trace ++ Event.setFromErrnoFunc site c :: rest := by
  rw [_LSErrorSetFromErrnoFunc_eq]
  cases w.lserror with
  | none => exact ⟨[], rfl⟩
  | some e =>
    dsimp only
    split
    · exact ⟨[Event.alloc, Event.store c (describe c)], rfl⟩
    · exact ⟨_, rfl⟩

theorem carries_isLog (ev : Event) (text : String) (h : ev.carries text) : ev.isLog = true := by
  cases ev <;> simp [Event.carries, Event.logLine, Event.isLog] at h ⊢

/-! ## The claims -/

/-- Claim C1, as stated, fails at the type name "LSError": the header samples
`sizeof("LSError") = 8` positions apart, NUL included, and gets 0x72373C3E, while the
formula with the length 7 of the name gives 0x373C3E3E. -/
theorem LS_MAGIC_LSError_ne_ComputeTag_strlen :
    LS_MAGIC (cstr "LSError") = some 1916222526 ∧
    ComputeTag (cstr "LSError") "LSError".length = 926694974 ∧
    LS_MAGIC (cstr "LSError") ≠ some (ComputeTag (cstr "LSError") "LSError".length) := by
  decide

/-- Claim C1, amended: for every ASCII type name `s`, `LS_MAGIC("s")` is `A XOR B` of
the specification with `len = sizeof("s")`, the length of the name plus one for the
terminating NUL, the samples being taken from the array that ends in that NUL; the
value fits a 32-bit `int` without overflow. -/
theorem LS_MAGIC_eq_ComputeTag_sizeof (s : String) (hascii : ∀ c ∈ s.toList, c.toNat < 128) :
    LS_MAGIC (cstr s) = some (ComputeTag (cstr s) (s.length + 1)) ∧
      ComputeTag (cstr s) (s.length + 1) < 2 ^ 31 := by
  refine ⟨LS_MAGIC_cstr s, ?_⟩
  have hb : ∀ i, (cstr s).getD i 0 < 128 := by
    intro i
    rw [List.getD_eq_getElem?_getD]
    cases h : (cstr s)[i]? with
    | none => simp
    | some x =>
      have hx : x ∈ cstr s := List.getElem?_mem h
      simp only [cstr, List.mem_append, List.mem_map, List.mem_singleton] at hx
      rcases hx with ⟨c, hc, rfl⟩ | rfl
      · simpa using hascii c hc
      · simp
  have h24 : ∀ i, (cstr s).getD i 0 <<< 24 < 2 ^ 31 := by
    intro i; have := hb i; rw [Nat.shiftLeft_eq]; omega
  have h16 : ∀ i, (cstr s).getD i 0 <<< 16 < 2 ^ 31 := by
    intro i; have := hb i; rw [Nat.shiftLeft_eq]; omega
  have h8 : ∀ i, (cstr s).getD i 0 <<< 8 < 2 ^ 31 := by
    intro i; have := hb i; rw [Nat.shiftLeft_eq]; omega
  have h0 : ∀ i, (cstr s).getD i 0 < 2 ^ 31 := by
    intro i; have := hb i; omega
  unfold ComputeTag
  exact Nat.xor_lt_two_pow
    (Nat.or_lt_two_pow (Nat.or_lt_two_pow (Nat.or_lt_two_pow (h24 _) (h16 _)) (h8 _)) (h0 _))
    (Nat.or_lt_two_pow (Nat.or_lt_two_pow (Nat.or_lt_two_pow (h24 _) (h16 _)) (h8 _)) (h0 _))

/-- Witness of `LS_MAGIC_eq_ComputeTag_sizeof` at the type name "LSError". -/
theorem LS_MAGIC_eq_ComputeTag_sizeof_witness :
    (∀ c ∈ "LSError".toList, c.toNat < 128) ∧
    LS_MAGIC (cstr "LSError") = some (ComputeTag (cstr "LSError") ("LSError".length + 1)) ∧
      ComputeTag (cstr "LSError") ("LSError".length + 1) < 2 ^ 31 :=
  ⟨by decide, LS_MAGIC_eq_ComputeTag_sizeof "LSError" (by decide)⟩

/-- Claim C2: `LS_MAGIC_ASSERT(object, T, ...)` logs (the caller's message and the
line of `LS_ASSERT`) and terminates the process exactly when the object is non-null
and its magic differs from `LS_MAGIC(T)`, which is always defined; for a null object
and for a matching magic it falls through with the world unchanged.
`LSERROR_CHECK_MAGIC` is the instance for `LSError`. -/
theorem LS_MAGIC_ASSERT_terminates_iff (site : Site) (objText : String) (object : Option Nat)
    (type format : String) (args : List Arg) (w : World σ) :
    LS_MAGIC (cstr type) ≠ none ∧
    LS_MAGIC_ASSERT site objText object type format args w =
      (match object with
       | none => (Ctl.next, w)
       | some magic =>
         if LS_MAGIC (cstr type) = some magic then (Ctl.next, w)
         else (Ctl.abort, { w with trace := w.trace ++
           [Event.critical format args,
            Event.critical (magicCondText objText type ++ ": failed in %s, %s, %d")
              [Arg.str site.function, Arg.str site.file, Arg.int site.line],
            Event.abort] })) ∧
    ((LS_MAGIC_ASSERT site objText object type format args w).1 = Ctl.abort ↔
      ∃ magic, object = some magic ∧ LS_MAGIC (cstr type) ≠ some magic) ∧
    (LS_MAGIC_ASSERT site objText object type format args w = (Ctl.next, w) ↔
      ¬ ∃ magic, object = some magic ∧ LS_MAGIC (cstr type) ≠ some magic) ∧
    LSERROR_CHECK_MAGIC site w =
      LS_MAGIC_ASSERT site "lserror" (w.lserror.map LSError.magic) "LSError"
        "LSError magic value incorrect.  Did you initialize it with LSErrorInit?" [] w := by
  refine ⟨?_, ?_, ?_, ?_, rfl⟩
  · rw [LS_MAGIC_cstr]; simp
  · rw [LS_MAGIC_ASSERT_eq]; rfl
  · rw [LS_MAGIC_ASSERT_eq]
    cases object with
    | none => simp
    | some magic =>
      by_cases h : LS_MAGIC (cstr type) = some magic <;> simp [h]
  · rw [LS_MAGIC_ASSERT_eq]
    cases object with
    | none => simp
    | some magic =>
      by_cases h : LS_MAGIC (cstr type) = some magic <;> simp [h]

/-- Claim C3 fails on the code: `_LSErrorSetLiteral` puts the text in the format
position of `_LSErrorSetFunc`.  The text "100%% done" is stored as "100% done"; the
text "100%s done" is a conversion with no argument, which has no defined behaviour,
and nothing is stored. -/
theorem _LSErrorSetLiteral_interprets_format :
    (_LSErrorSetLiteral ⟨"transport.c", 120, "LSTransportSend"⟩ 5 "100%% done"
      (⟨(), some ⟨0, none, 1916222526⟩, []⟩ : World Unit)).2.lserror
        = some ⟨5, some "100% done", 1916222526⟩ ∧
    (_LSErrorSetLiteral ⟨"transport.c", 120, "LSTransportSend"⟩ 5 "100%s done"
      (⟨(), some ⟨0, none, 1916222526⟩, []⟩ : World Unit)).2.lserror
        = some ⟨0, none, 1916222526⟩ ∧
    (_LSErrorSetLiteral ⟨"transport.c", 120, "LSTransportSend"⟩ 5 "100%s done"
      (⟨(), some ⟨0, none, 1916222526⟩, []⟩ : World Unit)).1 = Ctl.undefined := by
  decide

/-- Claim C4 fails on the code: on an initialised error value `_LSErrorSetOOM` logs
twice, then calls `_LSErrorSetFunc`, the formatted construction, which allocates the
message buffer before it stores code and text. -/
theorem _LSErrorSetOOM_calls_setFunc (LS_ERROR_CODE_OOM : Int) (site : Site) :
    _LSErrorSetOOM LS_ERROR_CODE_OOM site
      (⟨(), some ⟨0, none, 1916222526⟩, []⟩ : World Unit) =
    (Ctl.next, ⟨(), some ⟨LS_ERROR_CODE_OOM, some "Out of memory", 1916222526⟩,
      [Event.critical "Error in %s:%d" [Arg.str site.file, Arg.int site.line],
       Event.critical "Out of memory" [],
       Event.setFunc site LS_ERROR_CODE_OOM "Out of memory" [],
       Event.alloc,
       Event.store LS_ERROR_CODE_OOM "Out of memory"]⟩) := by
  unfold _LSErrorSetOOM _LSErrorSet
  rw [seq_g_critical, seq_evalThen_g_critical, evalThen]
  unfold _LSErrorSetNoPrint
  rw [_LSErrorSetFunc_eq]
  have h : g_strdup_vprintf "Out of memory" [] = some "Out of memory" := by decide
  simp [h, LS_ERROR_TEXT_OOM]

/-- Claim C5: each of `_LSErrorIfFail`, `_LSErrorIfFailMsg`, `_LSErrorGotoIfFail` and
`LS_ASSERT` evaluates its condition exactly once, whatever the condition yields: the
counter of evaluations of the condition ends one higher than it started. -/
theorem guards_evaluate_cond_once (site : Site) (label condText format : String) (cond : Expr σ Bool)
    (error_code : Int) (args : Expr σ (List Arg)) (w : World (σ × Nat)) :
    (_LSErrorIfFail site condText (counted cond) w).2.user.2 = w.user.2 + 1 ∧
    (_LSErrorIfFailMsg site condText (counted cond) error_code format (uncounted args) w).2.user.2
      = w.user.2 + 1 ∧
    (_LSErrorGotoIfFail site label condText (counted cond) error_code format (uncounted args)
      w).2.user.2 = w.user.2 + 1 ∧
    (LS_ASSERT site condText (counted cond) w).2.user.2 = w.user.2 + 1 := by
  refine ⟨?_, ?_, ?_, ?_⟩
  · unfold _LSErrorIfFail
    rw [evalThen]
    cases hc : (cond w.user.1).1
    · simp only [counted, hc, Bool.not_false, if_true]
      rw [seq_g_critical, seq_c_return_snd, _LSErrorSetFunc_user]
    · simp [counted, hc, skip]
  · unfold _LSErrorIfFailMsg
    rw [evalThen]
    cases hc : (cond w.user.1).1
    · simp only [counted, hc, Bool.not_false, if_true]
      rw [seq_evalThen_g_critical, seq_c_return_snd, evalThen, _LSErrorSetFunc_user]
      rfl
    · simp [counted, hc, skip]
  · unfold _LSErrorGotoIfFail
    rw [evalThen]
    cases hc : (cond w.user.1).1
    · simp only [counted, hc, Bool.not_false, if_true]
      rw [seq_evalThen_g_critical, seq_c_goto_snd, evalThen, _LSErrorSetFunc_user]
      rfl
    · simp [counted, hc, skip]
  · unfold LS_ASSERT evalThen
    cases hc : (cond w.user.1).1 <;>
      simp [counted, hc, seq, g_critical, emit, skip, c_assert]

/-- Claim C6, as stated, fails.  The condition `strcmp(s, "%%") == 0` is false: its
text goes through the format rendering and the stored message has a single percent
sign, so it does not contain the text.  And on an error value without the `LSError`
tag the validation in the setter terminates the process: nothing returns false. -/
theorem _LSErrorIfFail_counterexample :
    ((_LSErrorIfFail ⟨"base.c", 10, "check"⟩ "strcmp(s, \"%%\") == 0" (fun u => (false, u))
        (⟨(), some ⟨0, none, 1916222526⟩, []⟩ : World Unit)).2.lserror
      = some ⟨-1, some "strcmp(s, \"%\") == 0", 1916222526⟩ ∧
     ¬ ("strcmp(s, \"%%\") == 0".toList <:+: "strcmp(s, \"%\") == 0".toList)) ∧
    (_LSErrorIfFail ⟨"base.c", 10, "check"⟩ "ptr != NULL" (fun u => (false, u))
        (⟨(), some ⟨0, none, 0⟩, []⟩ : World Unit)).1 = Ctl.abort := by
  refine ⟨⟨by decide, ?_⟩, by decide⟩
  intro h
  have := h.length_le
  revert this
  decide

/-- Claim C6, amended: the condition text has no percent sign and the error value
is null or carries the `LSError` tag.  When the condition is false the guard logs,
calls the setter and returns false, no statement after it runs, and a non-null
value holds code -1 and the condition text as message; when the condition is true
the guard changes neither log nor error value and the next statement runs. -/
theorem _LSErrorIfFail_spec (site : Site) (condText : String) (cond : Expr σ Bool) (rest : Stmt σ) (w : World σ)
    (hpct : '%' ∉ condText.toList)
    (hvalid : ∀ e, w.lserror = some e → LS_MAGIC (cstr "LSError") = some e.magic) :
    if (cond w.user).1 then
      _LSErrorIfFail site condText cond w = (Ctl.next, { w with user := (cond w.user).2 }) ∧
      seq (_LSErrorIfFail site condText cond) rest w = rest { w with user := (cond w.user).2 }
    else
      _LSErrorIfFail site condText cond w =
        (Ctl.ret false,
          { user := (cond w.user).2,
            lserror := w.lserror.map fun e =>
              { e with error_code := -1, message := some condText },
            trace := w.trace ++
              [Event.critical (condText ++ " from " ++ site.file ++ ":%d @ %s")
                 [Arg.int site.line, Arg.str site.function],
               Event.setFunc site (-1) condText []] ++
              (match w.lserror with
               | some _ => [Event.alloc, Event.store (-1) condText]
               | none => []) }) ∧
      seq (_LSErrorIfFail site condText cond) rest w = _LSErrorIfFail site condText cond w := by
  have hr := g_strdup_vprintf_percent_free condText [] hpct
  cases hc : (cond w.user).1
  · simp only [Bool.false_eq_true, if_false]
    have key : _LSErrorIfFail site condText cond w =
        (Ctl.ret false,
          { user := (cond w.user).2,
            lserror := w.lserror.map fun e =>
              { e with error_code := -1, message := some condText },
            trace := w.trace ++
              [Event.critical (condText ++ " from " ++ site.file ++ ":%d @ %s")
                 [Arg.int site.line, Arg.str site.function],
               Event.setFunc site (-1) condText []] ++
              (match w.lserror with
               | some _ => [Event.alloc, Event.store (-1) condText]
               | none => []) }) := by
      unfold _LSErrorIfFail
      rw [evalThen]
      simp only [hc, Bool.not_false, if_true]
      rw [seq_g_critical]
      unfold seq
      rw [_LSErrorSetFunc_eq]
      cases hl : w.lserror with
      | none => simp [c_return]
      | some e =>
        have hm := valid_magic e (hvalid e hl)
        simp [hm, hr, c_return]
    refine ⟨key, ?_⟩
    unfold seq
    rw [key]
  · simp only [if_true]
    have key : _LSErrorIfFail site condText cond w =
        (Ctl.next, { w with user := (cond w.user).2 }) := by
      unfold _LSErrorIfFail
      rw [evalThen]
      simp [hc, skip]
    refine ⟨key, ?_⟩
    unfold seq
    rw [key]

/-- Witness of `_LSErrorIfFail_spec`: `ptr != NULL` with `ptr == NULL`. -/
theorem _LSErrorIfFail_spec_witness :
    ('%' ∉ "ptr != NULL".toList ∧
     ∀ e, (⟨(), some ⟨0, none, 1916222526⟩, []⟩ : World Unit).lserror = some e →
       LS_MAGIC (cstr "LSError") = some e.magic) ∧
    (_LSErrorIfFail ⟨"base.c", 10, "check"⟩ "ptr != NULL" (fun u => (false, u))
        (⟨(), some ⟨0, none, 1916222526⟩, []⟩ : World Unit)).2.lserror
      = some ⟨-1, some "ptr != NULL", 1916222526⟩ := by
  have hp : '%' ∉ "ptr != NULL".toList := by decide
  have hv : ∀ e, (⟨(), some ⟨0, none, 1916222526⟩, []⟩ : World Unit).lserror = some e →
       LS_MAGIC (cstr "LSError") = some e.magic := by
    intro e he
    cases he
    decide
  have h := _LSErrorIfFail_spec ⟨"base.c", 10, "check"⟩ "ptr != NULL" (fun u => (false, u)) skip
    (⟨(), some ⟨0, none, 1916222526⟩, []⟩ : World Unit) hp hv
  simp only [Bool.false_eq_true, if_false] at h
  refine ⟨⟨hp, hv⟩, ?_⟩
  rw [h.1]
  rfl

/-- Claim C7, as stated, fails.  On a non-null error value without the `LSError`
tag the validation in the setter terminates the process and `g_error_free` is not
reached.  On a tagged value a `GError` with the message "100%s done" has its message
rendered as a format with no argument: the behaviour is undefined and no call of
`g_error_free` is reached either. -/
theorem _LSErrorSetFromGError_counterexample :
    ((_LSErrorSetFromGError ⟨"mainloop.c", 77, "LSGmainAttach"⟩ ⟨5, "boom"⟩
        (⟨(), some ⟨0, none, 0⟩, []⟩ : World Unit)).1 = Ctl.abort ∧
     (_LSErrorSetFromGError ⟨"mainloop.c", 77, "LSGmainAttach"⟩ ⟨5, "boom"⟩
        (⟨(), some ⟨0, none, 0⟩, []⟩ : World Unit)).2.trace.count
          (Event.g_error_free ⟨5, "boom"⟩) = 0) ∧
    ((_LSErrorSetFromGError ⟨"mainloop.c", 77, "LSGmainAttach"⟩ ⟨5, "100%s done"⟩
        (⟨(), some ⟨0, none, 1916222526⟩, []⟩ : World Unit)).1 = Ctl.undefined ∧
     (_LSErrorSetFromGError ⟨"mainloop.c", 77, "LSGmainAttach"⟩ ⟨5, "100%s done"⟩
        (⟨(), some ⟨0, none, 1916222526⟩, []⟩ : World Unit)).2.trace.count
          (Event.g_error_free ⟨5, "100%s done"⟩) = 0) := by
  decide

/-- Claim C7, amended: for every `GError` and every error value that is null, or
that carries the `LSError` tag while the message of the `GError` renders as a
format without arguments, `_LSErrorSetFromGError` logs the message, hands code and
message to `_LSErrorSetFunc` through the literal macro, and ends with the one call
of `g_error_free`, after every read of the `GError`; so also for a null value. -/
theorem _LSErrorSetFromGError_frees_once (site : Site) (gerror : GError) (w : World σ)
    (hvalid : ∀ e, w.lserror = some e → LS_MAGIC (cstr "LSError") = some e.magic)
    (hrender : ∀ e, w.lserror = some e → g_strdup_vprintf gerror.message [] ≠ none) :
    (_LSErrorSetFromGError site gerror w).1 = Ctl.next ∧
    (_LSErrorSetFromGError site gerror w).2.trace =
      w.trace ++
        [Event.critical "Error in %s:%d, %s"
           [Arg.str site.file, Arg.int site.line, Arg.str gerror.message],
         Event.setFunc site gerror.code gerror.message []] ++
        (match w.lserror, g_strdup_vprintf gerror.message [] with
         | some _, some m => [Event.alloc, Event.store gerror.code m]
         | _, _ => []) ++
        [Event.g_error_free gerror] ∧
    ((_LSErrorSetFromGError site gerror w).2.trace.drop w.trace.length).count
      (Event.g_error_free gerror) = 1 := by
  unfold _LSErrorSetFromGError _LSErrorSetNoPrintLiteral
  rw [seq_g_critical]
  unfold seq
  rw [_LSErrorSetFunc_eq]
  cases hl : w.lserror with
  | none => simp [g_error_free, emit]
  | some e =>
    have hm := valid_magic e (hvalid e hl)
    cases hr : g_strdup_vprintf gerror.message [] with
    | none => exact absurd hr (hrender e hl)
    | some m => simp [hm, g_error_free, emit]

/-- Witness of `_LSErrorSetFromGError_frees_once`: a tagged error value, which takes
code and message and sees one `g_error_free` at the end, and a null one. -/
theorem _LSErrorSetFromGError_frees_once_witness :
    ((∀ e, (⟨(), some ⟨0, none, 1916222526⟩, []⟩ : World Unit).lserror = some e →
        LS_MAGIC (cstr "LSError") = some e.magic) ∧
     (∀ e, (⟨(), some ⟨0, none, 1916222526⟩, []⟩ : World Unit).lserror = some e →
        g_strdup_vprintf (⟨5, "boom"⟩ : GError).message [] ≠ none)) ∧
    (_LSErrorSetFromGError ⟨"mainloop.c", 77, "LSGmainAttach"⟩ ⟨5, "boom"⟩
        (⟨(), some ⟨0, none, 1916222526⟩, []⟩ : World Unit)).2.trace =
      [Event.critical "Error in %s:%d, %s" [Arg.str "mainloop.c", Arg.int 77, Arg.str "boom"],
       Event.setFunc ⟨"mainloop.c", 77, "LSGmainAttach"⟩ 5 "boom" [],
       Event.alloc,
       Event.store 5 "boom",
       Event.g_error_free ⟨5, "boom"⟩] ∧
    (_LSErrorSetFromGError ⟨"mainloop.c", 77, "LSGmainAttach"⟩ ⟨5, "boom"⟩
        (⟨(), none, []⟩ : World Unit)).2.trace =
      [Event.critical "Error in %s:%d, %s" [Arg.str "mainloop.c", Arg.int 77, Arg.str "boom"],
       Event.setFunc ⟨"mainloop.c", 77, "LSGmainAttach"⟩ 5 "boom" [],
       Event.g_error_free ⟨5, "boom"⟩] := by
  have hv : ∀ e, (⟨(), some ⟨0, none, 1916222526⟩, []⟩ : World Unit).lserror = some e →
      LS_MAGIC (cstr "LSError") = some e.magic := by
    intro e he
    cases he
    decide
  have hr : ∀ e, (⟨(), some ⟨0, none, 1916222526⟩, []⟩ : World Unit).lserror = some e →
      g_strdup_vprintf (⟨5, "boom"⟩ : GError).message [] ≠ none := by
    intro e _
    decide
  have hv0 : ∀ e, (⟨(), none, []⟩ : World Unit).lserror = some e →
      LS_MAGIC (cstr "LSError") = some e.magic := by
    intro e he
    cases he
  have hr0 : ∀ e, (⟨(), none, []⟩ : World Unit).lserror = some e →
      g_strdup_vprintf (⟨5, "boom"⟩ : GError).message [] ≠ none := by
    intro e he
    cases he
  refine ⟨⟨hv, hr⟩, ?_, ?_⟩
  · rw [(_LSErrorSetFromGError_frees_once ⟨"mainloop.c", 77, "LSGmainAttach"⟩ ⟨5, "boom"⟩
      (⟨(), some ⟨0, none, 1916222526⟩, []⟩ : World Unit) hv hr).2.1]
    decide
  · rw [(_LSErrorSetFromGError_frees_once ⟨"mainloop.c", 77, "LSGmainAttach"⟩ ⟨5, "boom"⟩
      (⟨(), none, []⟩ : World Unit) hv0 hr0).2.1]
    rfl

/-- Claim C9: for an array of size `n ≥ 1` each index `n*k/8`, `k = 0..7`, is below
`n`; no read of `LS_MAGIC` is out of range and the tag is defined. -/
theorem LS_MAGIC_reads_in_bounds (typestring : List Nat) (hn : 1 ≤ typestring.length) :
    (∀ k, k < 8 → sampleIndex typestring.length k < typestring.length) ∧
    (∀ k, k < 8 → typestring[sampleIndex typestring.length k]? ≠ none) ∧
    LS_MAGIC typestring ≠ none := by
  refine ⟨fun k hk => sampleIndex_lt _ k hn hk, fun k hk => ?_, ?_⟩
  · rw [getElem?_sampleIndex typestring k hn hk]; simp
  · rw [LS_MAGIC_eq_ComputeTag typestring hn]; simp

/-- Witness of `LS_MAGIC_reads_in_bounds` at the array of "LSError". -/
theorem LS_MAGIC_reads_in_bounds_witness :
    1 ≤ (cstr "LSError").length ∧ LS_MAGIC (cstr "LSError") ≠ none :=
  ⟨by decide, (LS_MAGIC_reads_in_bounds (cstr "LSError") (by decide)).2.2⟩
/-- Claim C10: when the condition of `_LSErrorIfFailMsg` or `_LSErrorGotoIfFail`
fails, the message arguments are evaluated twice, the first value going to
`g_critical` and the second to `_LSErrorSetFunc`; when it holds they are not
evaluated.  `_LSErrorSet` always evaluates `__VA_ARGS__` twice, likewise. -/
theorem message_args_evaluated_twice (site : Site) (label condText format : String) (cond : Expr σ Bool)
    (error_code : Int) (args : Expr σ (List Arg)) (va : Expr σ (String × List Arg))
    (w : World (σ × Nat)) :
    (if (cond w.user.1).1 then
        (_LSErrorIfFailMsg site condText (uncounted cond) error_code format (counted args)
          w).2.user.2 = w.user.2 ∧
        (_LSErrorGotoIfFail site label condText (uncounted cond) error_code format (counted args)
          w).2.user.2 = w.user.2
      else
        (_LSErrorIfFailMsg site condText (uncounted cond) error_code format (counted args)
          w).2.user.2 = w.user.2 + 2 ∧
        (_LSErrorGotoIfFail site label condText (uncounted cond) error_code format (counted args)
          w).2.user.2 = w.user.2 + 2 ∧
        (∃ rest,
          (_LSErrorIfFailMsg site condText (uncounted cond) error_code format (counted args)
            w).2.trace = w.trace ++
              Event.critical (condText ++ " from " ++ site.file ++ ":" ++ format)
                (args (cond w.user.1).2).1 ::
              Event.setFunc site error_code (condText ++ ": " ++ format)
                (args (args (cond w.user.1).2).2).1 :: rest) ∧
        (∃ rest,
          (_LSErrorGotoIfFail site label condText (uncounted cond) error_code format
            (counted args) w).2.trace = w.trace ++
              Event.critical (condText ++ " from " ++ site.file ++ ":" ++ format)
                (args (cond w.user.1).2).1 ::
              Event.setFunc site error_code (condText ++ ": " ++ format)
                (args (args (cond w.user.1).2).2).1 :: rest)) ∧
    (_LSErrorSet site error_code (counted va) w).2.user.2 = w.user.2 + 2 ∧
    (∃ rest, (_LSErrorSet site error_code (counted va) w).2.trace = w.trace ++
        Event.critical "Error in %s:%d" [Arg.str site.file, Arg.int site.line] ::
        Event.critical (va w.user.1).1.1 (va w.user.1).1.2 ::
        Event.setFunc site error_code (va (va w.user.1).2).1.1 (va (va w.user.1).2).1.2 ::
        rest) := by
  refine ⟨?_, ?_, ?_⟩
  · unfold _LSErrorIfFailMsg _LSErrorGotoIfFail
    rw [evalThen, evalThen]
    cases hc : (cond w.user.1).1
    · simp only [uncounted, hc, Bool.not_false, if_true, Bool.false_eq_true, if_false]
      rw [seq_evalThen_g_critical, seq_c_return_snd, evalThen, _LSErrorSetFunc_user,
        seq_evalThen_g_critical, seq_c_goto_snd, evalThen, _LSErrorSetFunc_user]
      refine ⟨rfl, rfl, ?_, ?_⟩
      · obtain ⟨rest, h⟩ := _LSErrorSetFunc_trace site error_code (condText ++ ": " ++ format)
          (args (args (cond w.user.1).2).2).1
          { user := ((args (args (cond w.user.1).2).2).2, w.user.2 + 1 + 1), lserror := w.lserror,
            trace := w.trace ++ [Event.critical (condText ++ " from " ++ site.file ++ ":" ++ format)
              (args (cond w.user.1).2).1] }
        refine ⟨rest, ?_⟩
        simp only [counted]
        rw [h]
        simp
      · obtain ⟨rest, h⟩ := _LSErrorSetFunc_trace site error_code (condText ++ ": " ++ format)
          (args (args (cond w.user.1).2).2).1
          { user := ((args (args (cond w.user.1).2).2).2, w.user.2 + 1 + 1), lserror := w.lserror,
            trace := w.trace ++ [Event.critical (condText ++ " from " ++ site.file ++ ":" ++ format)
              (args (cond w.user.1).2).1] }
        refine ⟨rest, ?_⟩
        simp only [counted]
        rw [h]
        simp
    · simp [uncounted, hc, skip]
  · unfold _LSErrorSet
    rw [seq_g_critical, seq_evalThen_g_critical, evalThen]
    unfold _LSErrorSetNoPrint
    rw [_LSErrorSetFunc_user]
    rfl
  · unfold _LSErrorSet
    rw [seq_g_critical, seq_evalThen_g_critical, evalThen]
    unfold _LSErrorSetNoPrint
    obtain ⟨rest, h⟩ := _LSErrorSetFunc_trace site error_code (va (va w.user.1).2).1.1
      (va (va w.user.1).2).1.2
      { user := ((va (va w.user.1).2).2, w.user.2 + 1 + 1), lserror := w.lserror,
        trace := w.trace ++ [Event.critical "Error in %s:%d" [Arg.str site.file, Arg.int site.line]]
          ++ [Event.critical (va w.user.1).1.1 (va w.user.1).1.2] }
    refine ⟨rest, ?_⟩
    simp only [counted]
    rw [h]
    simp

end LunaError
